import Mathlib

/-
Verification of the cross-channel budget optimizer.

Shallow embedding of:
  backend/agents/ad_optimization_agent.py   (ArmState, score_arm, allocate_budget,
                                             _allocate_budget_fallback)
  backend/services/optimization_strategies.py (ArmPerformance, update_arm_performance, ucb)
  backend/services/optimization_service.py  (optimize_once status, apply_budget_changes)
  backend/agents/roi_audit_agent.py         (_audit_fallback health score)
  backend/agents/signal_generation_agent.py (_generate_signals_fallback purchase value)

Python floats are modelled as exact rationals (and as real numbers where the
source uses math.log / math.sqrt); fallible lookups return Option.
-/

namespace AdOpt

inductive Platform
  | facebook
  | google
deriving DecidableEq, Repr

inductive InventoryStatus
  | in_stock
  | low_stock
  | out_of_stock
deriving DecidableEq, Repr

/-- ArmState (ad_optimization_agent.py lines 12-35).  Pydantic float fields are ℚ,
int fields are ℤ; Optional fields are Option.  Defaults mirror the pydantic defaults. -/
structure ArmState where
  platform : Platform
  id : String
  campaign_id : Option String := none
  campaign_name : Option String := none
  spend : ℚ := 0
  revenue : ℚ := 0
  conversions : ℤ := 0
  clicks : ℤ := 0
  impressions : ℤ := 0
  date : Option String := none
  ltv : Option ℚ := none
  profit_margin : Option ℚ := none
  inventory_status : Option InventoryStatus := none
  audience_quality_score : Option ℚ := none
  days_active : Option ℤ := none
  current_daily_budget : Option ℚ := none
deriving DecidableEq

/-- roas property (lines 37-40): revenue / spend if spend > 0 else 0. -/
def ArmState.roas (a : ArmState) : ℚ :=
  if 0 < a.spend then a.revenue / a.spend else 0

/-- cpa property (lines 42-47): spend / conversions if conversions > 0 else
float('inf'); the infinite case is modelled as none. -/
def ArmState.cpa (a : ArmState) : Option ℚ :=
  if 0 < a.conversions then some (a.spend / (a.conversions : ℚ)) else none

/-- profit property (lines 54-60): revenue * (margin, default 0.2) - spend. -/
def ArmState.profit (a : ArmState) : ℚ :=
  a.revenue * (a.profit_margin.getD (1/5)) - a.spend

/-- profit_roas property (lines 62-66). -/
def ArmState.profit_roas (a : ArmState) : ℚ :=
  if 0 < a.spend then a.profit / a.spend else 0

/-- ltv_roas property (lines 68-74): (ltv * conversions) / spend when ltv is set
and conversions > 0 (0 when spend = 0), otherwise falls back to roas. -/
def ArmState.ltv_roas (a : ArmState) : ℚ :=
  match a.ltv with
  | some l =>
      if 0 < a.conversions then
        (if 0 < a.spend then l * (a.conversions : ℚ) / a.spend else 0)
      else a.roas
  | none => a.roas

/-- The four optimization_goal literals of BudgetAllocationRequest. -/
inductive Goal
  | roas
  | profit
  | ltv
  | cpa
deriving DecidableEq, Repr

/-- score_arm (ad_optimization_agent.py lines 261-295). -/
def score_arm (arm : ArmState) (min_conversions : ℤ) (goal : Goal) : ℚ :=
  if arm.conversions < min_conversions then
    -- exploration bonus for low-data arms (lines 269-271)
    (if 0 < arm.impressions then 3/2 else 1)
  else
    let base : ℚ :=
      match goal with
      | Goal.roas => arm.roas
      | Goal.profit =>
          if arm.profit_margin ≠ none then arm.profit_roas else arm.roas * (4/5)
      | Goal.ltv =>
          if arm.ltv ≠ none then arm.ltv_roas else arm.roas * (6/5)
      | Goal.cpa =>
          match arm.cpa with
          | some c => if 0 < c then 1 / c else 0
          | none => 0
    let base2 : ℚ :=
      match arm.inventory_status with
      | some InventoryStatus.out_of_stock => base * (1/10)
      | some InventoryStatus.low_stock => base * (7/10)
      | _ => base
    let base3 : ℚ :=
      match arm.audience_quality_score with
      | some q => base2 * (1/2 + q)
      | none => base2
    max base3 0

/-- BudgetAllocationRequest (lines 82-103).  `changeLimit` is the source's
max_change_ratio field (pydantic: ge=0, le=1); `total_budget` has gt=0.
The strategy field only selects between the bandit path and the fallback path of
allocate_budget; the two paths are embedded as separate functions below. -/
structure BudgetAllocationRequest where
  arms : List ArmState
  total_budget : ℚ
  min_conversions : ℤ := 10
  changeLimit : ℚ := 3/10
  optimization_goal : Goal := Goal.roas
deriving DecidableEq

/-- BudgetAllocation output record (lines 106-114). -/
structure BudgetAllocation where
  arm_id : String
  platform : Platform
  current_budget : ℚ
  new_budget : ℚ
  change_percentage : ℚ
  score : ℚ
  reason : String
deriving DecidableEq

/-- Python `arm.current_daily_budget or arm.spend` (lines 329, 392, 405).  Python `or`
falls through on falsy values: both None and 0.0 yield spend. -/
def currentBudget (a : ArmState) : ℚ :=
  match a.current_daily_budget with
  | none => a.spend
  | some b => if b = 0 then a.spend else b

/-- Association-list lookup, modelling Python dict access. -/
def alookup {α : Type} (k : String) : List (String × α) → Option α
  | [] => none
  | p :: t => if p.1 = k then some p.2 else alookup k t

/-- Association-list insert-or-overwrite, modelling `d[k] = v`. -/
def aupsert {α : Type} (k : String) (v : α) : List (String × α) → List (String × α)
  | [] => [(k, v)]
  | p :: t => if p.1 = k then (k, v) :: t else p :: aupsert k v t

/-- Per-arm dict entry `scores[arm.id] = max(score, 0.0)` (fallback lines 374-381). -/
def armScore (req : BudgetAllocationRequest) (a : ArmState) : ℚ :=
  max (score_arm a req.min_conversions req.optimization_goal) 0

/-- The `scores` dict of _allocate_budget_fallback (lines 374-381), keyed by arm id. -/
def buildScores (req : BudgetAllocationRequest) : List (String × ℚ) :=
  req.arms.foldl (fun d a => aupsert a.id (armScore req a) d) []

/-- The sum `total_score = sum(scores.values())` (line 384). -/
def totalScore (req : BudgetAllocationRequest) : ℚ :=
  ((buildScores req).map Prod.snd).sum

/-- Truthiness of an optional float: None and 0.0 are falsy. -/
def qTruthy : Option ℚ → Bool
  | none => false
  | some x => x ≠ 0

/-- Reason string selection (lines 417-425); the numeric interpolation of the
source's f-strings is omitted as it does not affect any claim. -/
def propReason (req : BudgetAllocationRequest) (a : ArmState) : String :=
  if a.conversions < req.min_conversions then
    "Exploration allocation - low conversion volume"
  else if req.optimization_goal = Goal.profit ∧ qTruthy a.profit_margin then
    "Profit-optimized allocation"
  else if req.optimization_goal = Goal.ltv ∧ qTruthy a.ltv then
    "LTV-optimized allocation"
  else
    "ROAS-based allocation"

/-- The max-change clamp (lines 407-413): new stays inside
[current - current*ratio, current + current*ratio], floored at 0 downward. -/
def clampNew (raw cur limit : ℚ) : ℚ :=
  let maxC := cur * limit
  if |raw - cur| > maxC then
    (if raw > cur then cur + maxC else max 0 (cur - maxC))
  else raw

/-- One allocation of the proportional branch (lines 401-437).  The scores dict
always contains arm.id, so the getD default is never used. -/
def propEntry (req : BudgetAllocationRequest) (scores : List (String × ℚ))
    (total : ℚ) (a : ArmState) : BudgetAllocation :=
  let s := (alookup a.id scores).getD 0
  let raw := req.total_budget * (s / total)
  let cur := currentBudget a
  let nb := clampNew raw cur req.changeLimit
  { arm_id := a.id
    platform := a.platform
    current_budget := cur
    new_budget := nb
    change_percentage := if 0 < cur then (nb - cur) / cur * 100 else 0
    score := s
    reason := propReason req a }

/-- One allocation of the equal-split branch taken when total_score = 0
(lines 385-399).  No clamp is applied there.  (With an empty arm list the
source raises ZeroDivisionError; ℚ division by 0 yields 0 instead — all
theorems about this branch assume a non-empty arm list.) -/
def equalEntry (total_budget : ℚ) (n : ℕ) (a : ArmState) : BudgetAllocation :=
  { arm_id := a.id
    platform := a.platform
    current_budget := currentBudget a
    new_budget := total_budget / (n : ℚ)
    change_percentage := 0
    score := 0
    reason := "Equal allocation (no performance data)" }

/-- The allocations list of _allocate_budget_fallback (lines 368-453). -/
def fallbackAllocations (req : BudgetAllocationRequest) : List BudgetAllocation :=
  let scores := buildScores req
  let total := (scores.map Prod.snd).sum
  if total = 0 then
    req.arms.map (equalEntry req.total_budget req.arms.length)
  else
    req.arms.map (propEntry req scores total)

/-- The total `total_allocated = sum(a.new_budget for a in allocations)` (line 441). -/
def total_allocated (req : BudgetAllocationRequest) : ℚ :=
  ((fallbackAllocations req).map (fun b => b.new_budget)).sum

/-- The raw (pre-clamp) proportional budget of an arm (line 404). -/
def rawBudget (req : BudgetAllocationRequest) (a : ArmState) : ℚ :=
  req.total_budget * (((alookup a.id (buildScores req)).getD 0) / totalScore req)

/-- The clamp at lines 408-413 fires for this arm. -/
def clampFires (req : BudgetAllocationRequest) (a : ArmState) : Prop :=
  |rawBudget req a - currentBudget a| > currentBudget a * req.changeLimit

instance (req : BudgetAllocationRequest) (a : ArmState) :
    Decidable (clampFires req a) := by
  unfold clampFires; infer_instance

/-- ArmPerformance (optimization_strategies.py lines 20-27).  Float fields are ℝ
because the UCB score uses math.log and math.sqrt. -/
structure ArmPerformance where
  arm_id : String
  platform : Platform
  mean_reward : ℝ := 0
  variance : ℝ := 0
  pulls : ℤ := 0
  confidence_interval : ℝ := 0

/-- Reward per optimization goal (update_arm_performance lines 50-60). -/
def rewardFor (a : ArmState) (goal : Goal) : ℚ :=
  match goal with
  | Goal.roas => a.roas
  | Goal.profit => a.profit_roas
  | Goal.ltv => a.ltv_roas
  | Goal.cpa =>
      match a.cpa with
      | some c => if 0 < c then 1 / c else 0
      | none => 0

/-- The service's self.arm_performance dict. -/
abbrev PerfMap := List (String × ArmPerformance)

/-- standard_error (lines 29-34) for the pulls ≥ 1 records it is invoked on;
the source returns float('inf') at pulls = 0, which never reaches this helper
because update_arm_performance only reads it with pulls ≥ 2. -/
noncomputable def standardError (variance : ℝ) (pulls : ℤ) : ℝ :=
  if 0 < variance then Real.sqrt (variance / (pulls : ℝ)) else 0

/-- update_arm_performance (lines 44-92).  Returns the new dict and the record
the source returns.  A new arm is seeded (mean = reward, variance = 0,
pulls = 1); an existing record moves by the α = 0.1 exponential average, its
variance by the incremental rule when pulls > 1, pulls is incremented, and the
95% confidence interval (z = 1.96) is recomputed. -/
noncomputable def update_arm_performance (m : PerfMap) (a : ArmState) (goal : Goal) :
    PerfMap × ArmPerformance :=
  let reward : ℝ := ((rewardFor a goal : ℚ) : ℝ)
  match alookup a.id m with
  | none =>
      let p : ArmPerformance :=
        { arm_id := a.id, platform := a.platform, mean_reward := reward,
          variance := 0, pulls := 1 }
      (aupsert a.id p m, p)
  | some p0 =>
      let old := p0.mean_reward
      let newMean := old + (1/10 : ℝ) * (reward - old)
      let var :=
        if 1 < p0.pulls then
          (p0.variance * ((p0.pulls : ℝ) - 1) + (reward - old) * (reward - newMean))
            / (p0.pulls : ℝ)
        else p0.variance
      let pulls := p0.pulls + 1
      let ci :=
        if 1 < pulls then (49/25 : ℝ) * standardError var pulls
        else p0.confidence_interval
      let p : ArmPerformance :=
        { p0 with mean_reward := newMean, variance := var, pulls := pulls,
                  confidence_interval := ci }
      (aupsert a.id p m, p)

/-- The update loop of ucb (lines 141-143): threads the service map and builds
the local `performances` dict. -/
noncomputable def runUpdates (m : PerfMap) (arms : List ArmState) (goal : Goal) :
    PerfMap × PerfMap :=
  arms.foldl
    (fun acc a =>
      let r := update_arm_performance acc.1 a goal
      (r.1, aupsert a.id r.2 acc.2))
    (m, [])

/-- Python `total_pulls = sum(arm.conversions for arm in arms) or 1` (line 139):
Python `or` replaces a zero sum by 1. -/
def totalPulls (arms : List ArmState) : ℤ :=
  let s := (arms.map (fun a => a.conversions)).sum
  if s = 0 then 1 else s

/-- One UCB score (lines 147-156): none models the float('inf') given to a
record with pulls = 0; otherwise mean + c·√(ln N / pulls). -/
noncomputable def ucbScore (n : ℤ) (c : ℝ) (p : ArmPerformance) : Option ℝ :=
  if p.pulls = 0 then none
  else some (p.mean_reward + c * Real.sqrt (Real.log (n : ℝ) / (p.pulls : ℝ)))

/-- The ucb_scores dict (lines 146-156), built over the performances dict. -/
noncomputable def ucbScoresOf (perfs : PerfMap) (n : ℤ) (c : ℝ) :
    List (String × Option ℝ) :=
  perfs.map (fun e => (e.1, ucbScore n c e.2))

/-- Finite score looked up by arm id (line 167). -/
noncomputable def scoreAt (k : String) (scores : List (String × Option ℝ)) : ℝ :=
  match alookup k scores with
  | some (some x) => x
  | _ => 0

/-- ucb (lines 122-170).  Returns the service map after the updates and the
allocations dict.  When every score is finite: zero total ⇒ equal split, else
proportional shares.  The branch in which some score is infinite is
unreachable — update_arm_performance always yields pulls ≥ 1 (see
`runUpdates_pulls_pos`) — and in the source it would degrade into inf/NaN
shares, which ℝ cannot represent; it is mapped to the empty dict. -/
noncomputable def ucb (m : PerfMap) (arms : List ArmState) (total_budget : ℝ)
    (goal : Goal) (confidence_level : ℝ) : PerfMap × List (String × ℝ) :=
  if arms = [] then (m, [])
  else
    let n := totalPulls arms
    let r := runUpdates m arms goal
    let scores := ucbScoresOf r.2 n confidence_level
    (r.1,
      if scores.all (fun e => e.2.isSome) then
        let tot := (scores.map (fun e => e.2.getD 0)).sum
        if tot = 0 then
          arms.map (fun a => (a.id, total_budget / (arms.length : ℝ)))
        else
          arms.map (fun a => (a.id, total_budget * (scoreAt a.id scores / tot)))
      else [])

/-- The strategy branch of allocate_budget (ad_optimization_agent.py lines
302-324) for strategy = "ucb": the source constructs a NEW
OptimizationStrategyService on every call (line 309), so the performance map
always starts empty, whatever earlier calls did. -/
noncomputable def allocate_budget_ucb (arms : List ArmState) (total_budget : ℝ)
    (goal : Goal) : PerfMap × List (String × ℝ) :=
  ucb [] arms total_budget goal 2

/-- The BudgetAllocation built from a bandit result (lines 326-342), with
ℝ-valued budgets; score is hard-coded to 0 and reason to a strategy tag. -/
structure BanditAllocation where
  arm_id : String
  platform : Platform
  current_budget : ℝ
  new_budget : ℝ
  change_percentage : ℝ
  score : ℝ
  reason : String

/-- Conversion of one arm's bandit allocation (lines 327-342):
`new_budget = allocations.get(arm.id, 0.0)`, current budget via Python `or`. -/
noncomputable def banditEntry (allocs : List (String × ℝ)) (a : ArmState)
    (strategyTag : String) : BanditAllocation :=
  let nb := (alookup a.id allocs).getD 0
  let cur : ℝ := ((currentBudget a : ℚ) : ℝ)
  { arm_id := a.id
    platform := a.platform
    current_budget := cur
    new_budget := nb
    change_percentage := if 0 < cur then (nb - cur) / cur * 100 else 0
    score := 0
    reason := strategyTag }

/-- optimize_once (optimization_service.py lines 139-194), with the fetch step
abstracted into the already-collected arm list: the report status is "no_data"
for an empty working set and "success" otherwise; no other status is ever
produced, and apply_budget_changes is not invoked (line 187 is commented out). -/
def optimizeOnceStatus (arms : List ArmState) : String :=
  if arms = [] then ("no_data") else ("success")

inductive ApplyStatus
  | success
  | pending
  | error
deriving DecidableEq, Repr

/-- One per-arm result of apply_budget_changes (lines 208-239). -/
structure ApplyItem where
  arm_id : String
  platform : Platform
  status : ApplyStatus
deriving DecidableEq

/-- Per-allocation outcome (lines 208-239): the facebook HTTP call either
succeeds or raises (abstracted by fbOk); the google branch only logs a warning
and records "pending" (budget_id mapping missing), it cannot raise. -/
def applyResult (fbOk : String → Bool) (b : BudgetAllocation) : ApplyItem :=
  match b.platform with
  | Platform.facebook =>
      { arm_id := b.arm_id, platform := Platform.facebook,
        status := if fbOk b.arm_id then ApplyStatus.success else ApplyStatus.error }
  | Platform.google =>
      { arm_id := b.arm_id, platform := Platform.google, status := ApplyStatus.pending }

/-- The summary dict returned by apply_budget_changes (lines 241-245): it counts
"success" and "error" results only — there is no pending count and no status
field. -/
structure ApplySummary where
  updated : ℕ
  failed : ℕ
  results : List ApplyItem
deriving DecidableEq

def apply_budget_changes (fbOk : String → Bool) (allocs : List BudgetAllocation) :
    ApplySummary :=
  let results := allocs.map (applyResult fbOk)
  { updated := (results.filter (fun r => r.status = ApplyStatus.success)).length
    failed := (results.filter (fun r => r.status = ApplyStatus.error)).length
    results := results }

inductive Severity
  | critical
  | high
  | medium
  | low
deriving DecidableEq, Repr

/-- A tracking or configuration issue of the fallback audit; only the fields the
health score depends on are kept (descriptions are formatted strings). -/
structure AuditIssue where
  issue_type : String
  severity : Severity
deriving DecidableEq

/-- The platform_configs dict of ROIAuditRequest, reduced to the two keys the
fallback audit reads; a missing key defaults to False.  none models both a None
and an empty (falsy) dict. -/
structure PlatformConfigs where
  facebook_capi_enabled : Bool := false
  google_ec_enabled : Bool := false
deriving DecidableEq

/-- ROIAuditRequest (roi_audit_agent.py lines 33-45). -/
structure ROIAuditRequest where
  arms : List ArmState
  account_id : String
  time_window : String := "last_7d"
  optimization_goal : Goal := Goal.roas
  platform_configs : Option PlatformConfigs := none

/-- Tracking issues fired per arm (_audit_fallback lines 158-183), in source order. -/
def trackingIssuesFor (a : ArmState) : List AuditIssue :=
  (if 0 < a.spend ∧ a.conversions = 0 then
    [{ issue_type := "missing_conversions", severity := Severity.critical }] else []) ++
  (if 0 < a.conversions ∧ a.conversions < 10 ∧ 100 < a.spend then
    [{ issue_type := "low_conversion_volume", severity := Severity.high }] else [])

/-- Configuration issues fired per arm (lines 185-235), in source order. -/
def configIssuesFor (goal : Goal) (a : ArmState) : List AuditIssue :=
  (if a.roas < 1/2 ∧ 500 < a.spend then
    [{ issue_type := "negative_roas", severity := Severity.high }] else []) ++
  (if goal = Goal.ltv ∧ a.ltv = none then
    [{ issue_type := "missing_ltv_data", severity := Severity.medium }] else []) ++
  (if goal = Goal.profit ∧ a.profit_margin = none then
    [{ issue_type := "missing_profit_margin", severity := Severity.medium }] else []) ++
  (if a.inventory_status = some InventoryStatus.out_of_stock ∧ 0 < a.spend then
    [{ issue_type := "out_of_stock_campaign", severity := Severity.high }] else [])

/-- Platform-level configuration issues (lines 238-265), fired once per account
when platform_configs is truthy. -/
def platformIssues (cfg : Option PlatformConfigs) : List AuditIssue :=
  match cfg with
  | none => []
  | some c =>
      (if ¬ c.facebook_capi_enabled then
        [{ issue_type := "missing_capi", severity := Severity.high }] else []) ++
      (if ¬ c.google_ec_enabled then
        [{ issue_type := "missing_enhanced_conversions", severity := Severity.high }] else [])

/-- All tracking issues of the request. -/
def auditTrackingIssues (req : ROIAuditRequest) : List AuditIssue :=
  (req.arms.map trackingIssuesFor).flatten

/-- All configuration issues of the request. -/
def auditConfigIssues (req : ROIAuditRequest) : List AuditIssue :=
  (req.arms.map (configIssuesFor req.optimization_goal)).flatten ++
    platformIssues req.platform_configs

/-- tracking_issues + config_issues, the list the severity counts run over
(lines 268-270).  The source interleaves the two lists differently, which
cannot change any count. -/
def auditIssues (req : ROIAuditRequest) : List AuditIssue :=
  auditTrackingIssues req ++ auditConfigIssues req

def countSeverity (s : Severity) (l : List AuditIssue) : ℕ :=
  (l.filter (fun i => i.severity = s)).length

/-- health_score (lines 267-273):
max(0, 100 - (critical*20 + high*10 + medium*5)). -/
def overall_health_score (req : ROIAuditRequest) : ℤ :=
  let issues := auditIssues req
  max 0 (100 - ((countSeverity Severity.critical issues : ℤ) * 20 +
                (countSeverity Severity.high issues : ℤ) * 10 +
                (countSeverity Severity.medium issues : ℤ) * 5))

/-- LTVData (signal_generation_agent.py lines 25-31), reduced to the fields the
fallback reads. -/
structure LTVData where
  user_id : Option String := none
  predicted_ltv : Option ℚ := none
deriving DecidableEq

/-- BusinessEvent (lines 12-22).  The timestamp and subscription_id fields are
never read by the fallback value computation and are omitted; metadata is
modelled as a string-valued association list (the fallback reads only
string-typed keys from it). -/
structure BusinessEvent where
  event_type : String
  event_id : String
  user_id : String
  revenue : Option ℚ := none
  currency : String := "USD"
  product_id : Option String := none
  metadata : List (String × String) := []
deriving DecidableEq

def metaGet (k : String) (e : BusinessEvent) : Option String :=
  alookup k e.metadata

/-- The lookup `next((ltv for ltv in request.ltv_data if ltv.user_id == event.user_id), None)`
(lines 171-175); an empty list models a falsy/absent ltv_data. -/
def findLtv (ltv_data : List LTVData) (uid : String) : Option LTVData :=
  ltv_data.find? (fun l => l.user_id = some uid)

/-- The value of a purchase-event signal (_generate_signals_fallback lines
160-185): none when revenue is missing (the event is skipped with an issue);
otherwise revenue, possibly replaced by a truthy predicted LTV exceeding
1.5·revenue, and then overwritten by revenue·margin when the profit-margin map
is truthy and the metadata carries a truthy product_id (margin default 0.2). -/
def purchaseValue (profit_margins : List (String × ℚ)) (ltv_data : List LTVData)
    (e : BusinessEvent) : Option ℚ :=
  match e.revenue with
  | none => none
  | some rev =>
      let v1 : ℚ :=
        match findLtv ltv_data e.user_id with
        | some ld =>
            match ld.predicted_ltv with
            | some pl => if pl ≠ 0 ∧ rev * (3/2) < pl then pl else rev
            | none => rev
        | none => rev
      some
        (match metaGet ("product_id") e with
         | some pid =>
             if profit_margins ≠ [] ∧ pid ≠ "" then
               rev * ((alookup pid profit_margins).getD (1/5))
             else v1
         | none => v1)

/-! Concrete inputs used by counterexamples and witnesses. -/

/-- Single arm with good history but a large current budget (spend 1000). -/
def armBig : ArmState :=
  { platform := Platform.facebook, id := "a", spend := 1000, revenue := 1000,
    conversions := 10, impressions := 1000 }

/-- Request whose only arm is clamped upward relative to its share. -/
def reqClamp : BudgetAllocationRequest :=
  { arms := [armBig], total_budget := 100 }

/-- Two identical well-behaved arms; no clamp fires. -/
def armTwinA : ArmState :=
  { platform := Platform.facebook, id := "a", spend := 50, revenue := 100,
    conversions := 10, impressions := 10 }

def armTwinB : ArmState := { armTwinA with id := "b" }

def reqTwins : BudgetAllocationRequest :=
  { arms := [armTwinA, armTwinB], total_budget := 100 }

/-- Arm with enough conversions but zero revenue: score 0. -/
def armZeroScore : ArmState :=
  { platform := Platform.facebook, id := "z", spend := 100, revenue := 0,
    conversions := 10, impressions := 1000 }

/-- Request that takes the equal-split branch with a huge jump from spend. -/
def reqZeroScore : BudgetAllocationRequest :=
  { arms := [armZeroScore], total_budget := 1000 }

/-- Low-data arm with impressions, for the exploration bonus. -/
def armExplore : ArmState :=
  { platform := Platform.google, id := "e", spend := 10, revenue := 5,
    conversions := 3, impressions := 100 }

/-- Arm observed by a first bandit allocation cycle: ROAS 2. -/
def armCycle1 : ArmState :=
  { platform := Platform.facebook, id := "a", spend := 100, revenue := 200,
    conversions := 10, impressions := 1000 }

/-- The same arm as seen by the next cycle: ROAS 4. -/
def armCycle2 : ArmState := { armCycle1 with revenue := 400 }

/-- Performance map after a first call to allocate_budget (strategy "ucb"). -/
noncomputable def perfAfterCall1 : PerfMap :=
  (allocate_budget_ucb [armCycle1] 100 Goal.roas).1

/-- Performance map after a second, later call to allocate_budget: the source
builds a fresh OptimizationStrategyService again, so the map again starts empty. -/
noncomputable def perfAfterCall2 : PerfMap :=
  (allocate_budget_ucb [armCycle2] 100 Goal.roas).1

/-- Three fresh arms right after reset_performance (no history at all). -/
def armFresh1 : ArmState := { platform := Platform.facebook, id := "u1" }

def armFresh2 : ArmState := { platform := Platform.facebook, id := "u2" }

def armFresh3 : ArmState := { platform := Platform.google, id := "u3" }

def freshArms : List ArmState := [armFresh1, armFresh2, armFresh3]

/-- The UCB run of the cold-start scenario: reset_performance cleared the map,
so the service map is empty. -/
noncomputable def coldStartRun : PerfMap × List (String × ℝ) :=
  allocate_budget_ucb freshArms 300 Goal.roas

/-- The ucb_scores dict computed inside that run. -/
noncomputable def coldStartScores : List (String × Option ℝ) :=
  ucbScoresOf (runUpdates [] freshArms Goal.roas).2 (totalPulls freshArms) 2

/-- A facebook arm and a google arm for the apply scenario. -/
def armFb : ArmState :=
  { platform := Platform.facebook, id := "fb1", spend := 50, revenue := 100,
    conversions := 12, impressions := 2000 }

def armG : ArmState :=
  { platform := Platform.google, id := "g1", spend := 50, revenue := 100,
    conversions := 12, impressions := 2000 }

def allocFb : BudgetAllocation :=
  { arm_id := "fb1", platform := Platform.facebook, current_budget := 50,
    new_budget := 60, change_percentage := 20, score := 2,
    reason := "ROAS-based allocation" }

def allocG : BudgetAllocation :=
  { arm_id := "g1", platform := Platform.google, current_budget := 50,
    new_budget := 40, change_percentage := -20, score := 2,
    reason := "ROAS-based allocation" }

/-- apply_budget_changes on the scenario: the facebook update succeeds, the
google one is pending. -/
def applyScenario : ApplySummary :=
  apply_budget_changes (fun _ => true) [allocFb, allocG]

/-- Arm with conversions above threshold but zero spend. -/
def armNoSpend : ArmState :=
  { platform := Platform.facebook, id := "x", spend := 0, revenue := 0,
    conversions := 10, impressions := 1000 }

/-- Identical except for a strictly larger revenue. -/
def armNoSpendRich : ArmState := { armNoSpend with revenue := 100 }

/-- Well-funded arm used for the monotonicity witness (revenue overridden). -/
def armFunded : ArmState :=
  { platform := Platform.facebook, id := "m", spend := 100, revenue := 0,
    conversions := 20, impressions := 5000 }

/-- Purchase event whose product id sits in the top-level field only; the
metadata carries no product_id. -/
def eventFieldPid : BusinessEvent :=
  { event_type := "purchase", event_id := "e1", user_id := "u",
    revenue := some 100, product_id := some ("p2") }

/-- Margin map containing that product. -/
def marginsP2 : List (String × ℚ) := [("p2", 1/2)]

/-- Purchase event whose metadata carries the product id. -/
def eventMetaPid : BusinessEvent :=
  { event_type := "purchase", event_id := "e2", user_id := "u",
    revenue := some 100, metadata := [("product_id", "p1")] }

def marginsP1 : List (String × ℚ) := [("p1", 1/2)]

/-- Arm with an explicit zero daily budget. -/
def armZeroDaily : ArmState :=
  { platform := Platform.facebook, id := "zd", spend := 40, revenue := 120,
    conversions := 15, impressions := 3000, current_daily_budget := some 0 }

/-! Helper lemmas. -/

theorem max_zero_lt_max_zero (x y : ℚ) (hx : 0 ≤ x) (hxy : x < y) :
    max x 0 < max y 0 := by
  rw [max_eq_left hx, max_eq_left (le_trans hx hxy.le)]
  exact hxy

/-- C3: if conversions < min_conversions, score_arm returns exactly 1.5 when
impressions > 0 and exactly 1.0 otherwise, for every goal and regardless of
inventory_status or audience_quality_score, and the result is always ≥ 1. -/
theorem exploration_short_circuit (a : ArmState) (mc : ℤ) (g : Goal)
    (h : a.conversions < mc) :
    score_arm a mc g = (if 0 < a.impressions then (3/2 : ℚ) else 1) ∧
      1 ≤ score_arm a mc g := by
  unfold score_arm
  rw [if_pos h]
  refine ⟨rfl, ?_⟩
  split <;> norm_num

theorem exploration_short_circuit_witness :
    armExplore.conversions < 10 ∧
      (score_arm armExplore 10 Goal.cpa
          = (if 0 < armExplore.impressions then (3/2 : ℚ) else 1) ∧
        1 ≤ score_arm armExplore 10 Goal.cpa) :=
  ⟨by decide, exploration_short_circuit armExplore 10 Goal.cpa (by decide)⟩

/-- C7 (amended): under goal roas, with conversions ≥ min_conversions, positive
spend, no stock-downgrade modifier, a (well-formed, i.e. nonnegative) quality
score when present, and nonnegative revenues, strictly more revenue gives a
strictly larger score. -/
theorem roas_score_strict_mono (a : ArmState) (mc : ℤ) (r1 r2 : ℚ)
    (hc : mc ≤ a.conversions) (hs : 0 < a.spend)
    (hio : a.inventory_status ≠ some InventoryStatus.out_of_stock)
    (hil : a.inventory_status ≠ some InventoryStatus.low_stock)
    (hq : ∀ q, a.audience_quality_score = some q → 0 ≤ q)
    (h1 : 0 ≤ r1) (h12 : r1 < r2) :
    score_arm { a with revenue := r1 } mc Goal.roas
      < score_arm { a with revenue := r2 } mc Goal.roas := by
  have hnc : ¬ a.conversions < mc := not_lt.mpr hc
  have hroas : ∀ r : ℚ, ({ a with revenue := r } : ArmState).roas = r / a.spend := by
    intro r
    unfold ArmState.roas
    simp [hs]
  have hdiv : r1 / a.spend < r2 / a.spend := by gcongr
  have hnn : 0 ≤ r1 / a.spend := div_nonneg h1 hs.le
  unfold score_arm ArmState.roas
  dsimp only
  rw [if_neg hnc, if_neg hnc, if_pos hs, if_pos hs]
  cases hinv : a.inventory_status with
  | none =>
      cases hqv : a.audience_quality_score with
      | none =>
          exact max_zero_lt_max_zero _ _ hnn hdiv
      | some q =>
          have hk : 0 < (1/2 : ℚ) + q := by have := hq q hqv; linarith
          exact max_zero_lt_max_zero _ _ (mul_nonneg hnn hk.le)
            (mul_lt_mul_of_pos_right hdiv hk)
  | some v =>
      cases v with
      | in_stock =>
          cases hqv : a.audience_quality_score with
          | none =>
              exact max_zero_lt_max_zero _ _ hnn hdiv
          | some q =>
              have hk : 0 < (1/2 : ℚ) + q := by have := hq q hqv; linarith
              exact max_zero_lt_max_zero _ _ (mul_nonneg hnn hk.le)
                (mul_lt_mul_of_pos_right hdiv hk)
      | low_stock => exact absurd hinv hil
      | out_of_stock => exact absurd hinv hio

theorem roas_score_strict_mono_witness :
    score_arm { armFunded with revenue := 50 } 10 Goal.roas
      < score_arm { armFunded with revenue := 100 } 10 Goal.roas :=
  roas_score_strict_mono armFunded 10 50 100 (by decide) (by decide) (by decide)
    (by decide) (fun q h => Option.noConfusion h) (by decide) (by decide)

/-- C7 counterexample: with spend = 0 both arms score 0 under goal roas, so the
claimed strict monotonicity in revenue fails (all claim hypotheses hold: the
arms differ only in revenue, conversions ≥ 10, no downward modifier). -/
theorem roas_score_zero_spend :
    armNoSpend.revenue < armNoSpendRich.revenue ∧
      score_arm armNoSpend 10 Goal.roas = score_arm armNoSpendRich 10 Goal.roas ∧
      ¬ score_arm armNoSpend 10 Goal.roas < score_arm armNoSpendRich 10 Goal.roas := by
  refine ⟨by decide, by decide, by decide⟩

/-- C8: the fallback audit's health score equals
max(0, 100 − 20·critical − 10·high − 5·medium) over the issues fired, hence
lies in [0, 100]. -/
theorem audit_health_score_formula (req : ROIAuditRequest) :
    overall_health_score req
        = max 0 (100 - 20 * (countSeverity Severity.critical (auditIssues req) : ℤ)
            - 10 * (countSeverity Severity.high (auditIssues req) : ℤ)
            - 5 * (countSeverity Severity.medium (auditIssues req) : ℤ)) ∧
      0 ≤ overall_health_score req ∧ overall_health_score req ≤ 100 := by
  unfold overall_health_score
  dsimp only
  refine ⟨?_, le_max_left 0 _, ?_⟩
  · omega
  · exact max_le (by norm_num) (by omega)

/-- C9 (amended): the margin step of the purchase branch keys off
event.metadata["product_id"], not the BusinessEvent.product_id field: whenever
the margin map is non-empty and the metadata carries a non-empty product_id,
the signal value is revenue · margin with margin looked up under that metadata
id (default 0.2). -/
theorem purchase_margin_uses_metadata (pm : List (String × ℚ)) (lt : List LTVData)
    (e : BusinessEvent) (r : ℚ) (pid : String)
    (hr : e.revenue = some r) (hpm : pm ≠ [])
    (hpid : metaGet ("product_id") e = some pid) (hne : pid ≠ "") :
    purchaseValue pm lt e = some (r * ((alookup pid pm).getD (1/5))) := by
  unfold purchaseValue
  rw [hr, hpid]
  simp [hpm, hne]

theorem purchase_margin_uses_metadata_witness :
    purchaseValue marginsP1 [] eventMetaPid
      = some (100 * ((alookup ("p1") marginsP1).getD (1/5))) :=
  purchase_margin_uses_metadata marginsP1 [] eventMetaPid 100 ("p1") rfl (by decide)
    (by decide) (by decide)

/-- C9 counterexample: a purchase event whose product id is set in the
BusinessEvent.product_id field (and absent from metadata) is NOT margin-adjusted:
the value stays 100 instead of the claimed 100 · 0.5 for product "p2". -/
theorem purchase_margin_ignores_field :
    purchaseValue marginsP2 [] eventFieldPid = some 100 ∧
      some (100 : ℚ) ≠ some ((100 : ℚ) * (1/2)) := by
  refine ⟨by decide, by norm_num⟩

/-- C10: an explicit current_daily_budget of 0 is falsy under Python `or`, so
the current budget falls back to spend; consequently the equal-split entry, the
proportional (clamped) entry and the bandit-result entry for such an arm are
identical to those of the same arm with a null daily budget. -/
theorem zero_daily_budget_uses_spend (a : ArmState)
    (h : a.current_daily_budget = some 0) :
    currentBudget a = a.spend ∧
      (∀ tb : ℚ, ∀ n : ℕ, equalEntry tb n a
          = equalEntry tb n { a with current_daily_budget := none }) ∧
      (∀ req : BudgetAllocationRequest, ∀ scores : List (String × ℚ), ∀ total : ℚ,
          propEntry req scores total a
            = propEntry req scores total { a with current_daily_budget := none }) ∧
      (∀ allocs : List (String × ℝ), ∀ tag : String,
          banditEntry allocs a tag
            = banditEntry allocs { a with current_daily_budget := none } tag) := by
  have hc : currentBudget a = a.spend := by
    unfold currentBudget
    rw [h]
    simp
  have hc2 : currentBudget { a with current_daily_budget := none } = a.spend := by
    unfold currentBudget
    rfl
  refine ⟨hc, ?_, ?_, ?_⟩
  · intro tb n
    unfold equalEntry
    rw [hc, hc2]
  · intro req scores total
    unfold propEntry propReason
    rw [hc, hc2]
  · intro allocs tag
    unfold banditEntry
    rw [hc, hc2]

theorem zero_daily_budget_uses_spend_witness :
    armZeroDaily.current_daily_budget = some 0 ∧
      currentBudget armZeroDaily = armZeroDaily.spend :=
  ⟨rfl, (zero_daily_budget_uses_spend armZeroDaily rfl).1⟩

/-- C6 counterexample: the cycle (optimize_once) on a non-empty working set —
here one facebook arm and one google arm — reports status "success", never
"partial": budget application is not part of the cycle. -/
theorem cycle_status_success :
    optimizeOnceStatus [armFb, armG] = "success" ∧
      optimizeOnceStatus [armFb, armG] ≠ "partial" := by
  refine ⟨by decide, by decide⟩

/-- C6 (amended): optimize_once only ever returns "no_data" or "success";
apply_budget_changes (invoked separately) on a facebook-success / google-pending
pair counts updated = 1 and failed = 0, with the single pending outcome visible
only in the per-arm results list — there is no pending count and no cycle-level
"partial" status. -/
theorem cycle_statuses_and_apply_counts :
    (∀ arms : List ArmState,
        optimizeOnceStatus arms = "no_data" ∨ optimizeOnceStatus arms = "success") ∧
      applyScenario.updated = 1 ∧ applyScenario.failed = 0 ∧
      (applyScenario.results.filter
          (fun r => r.status = ApplyStatus.pending)).length = 1 := by
  refine ⟨?_, by decide, by decide, by decide⟩
  intro arms
  unfold optimizeOnceStatus
  split
  · exact Or.inl rfl
  · exact Or.inr rfl

theorem clampNew_envelope (raw cur limit : ℚ) (h0 : 0 ≤ limit) (h1 : limit ≤ 1)
    (hc : 0 ≤ cur) : |clampNew raw cur limit - cur| ≤ limit * cur := by
  unfold clampNew
  dsimp only
  split
  case isTrue hgt =>
    split
    case isTrue hup =>
      rw [add_sub_cancel_left, abs_of_nonneg (mul_nonneg hc h0), mul_comm]
    case isFalse hdown =>
      have hnn : 0 ≤ cur - cur * limit := by nlinarith
      rw [max_eq_right hnn, sub_sub_cancel_left, abs_neg,
        abs_of_nonneg (mul_nonneg hc h0), mul_comm]
  case isFalse hle =>
    push_neg at hle
    calc |raw - cur| ≤ cur * limit := hle
      _ = limit * cur := mul_comm cur limit

/-- C2 (amended): on the proportional branch (total score ≠ 0), with the
pydantic bounds 0 ≤ max_change_ratio ≤ 1 and nonnegative current budgets, every
output allocation satisfies |new − current| ≤ ratio · current.  (The equal-split
branch applies no clamp and violates this — see the counterexample.) -/
theorem fallback_clamp_envelope (req : BudgetAllocationRequest)
    (hT : totalScore req ≠ 0)
    (h0 : 0 ≤ req.changeLimit) (h1 : req.changeLimit ≤ 1)
    (hcur : ∀ a ∈ req.arms, 0 ≤ currentBudget a) :
    ∀ b ∈ fallbackAllocations req,
      |b.new_budget - b.current_budget| ≤ req.changeLimit * b.current_budget := by
  intro b hb
  unfold totalScore at hT
  simp only [fallbackAllocations] at hb
  rw [if_neg hT] at hb
  obtain ⟨a, ha, rfl⟩ := List.mem_map.mp hb
  simp only [propEntry]
  exact clampNew_envelope _ _ _ h0 h1 (hcur a ha)

theorem fallback_clamp_envelope_witness :
    totalScore reqTwins ≠ 0 ∧
      ∀ b ∈ fallbackAllocations reqTwins,
        |b.new_budget - b.current_budget| ≤ reqTwins.changeLimit * b.current_budget := by
  have hT : totalScore reqTwins ≠ 0 := by
    norm_num [totalScore, buildScores, aupsert, armScore, score_arm, ArmState.roas,
      reqTwins, armTwinA, armTwinB, show ("a" : String) ≠ "b" by decide]
  refine ⟨hT, fallback_clamp_envelope reqTwins hT (by norm_num [reqTwins])
    (by norm_num [reqTwins]) ?_⟩
  intro a ha
  simp only [reqTwins, List.mem_cons, List.not_mem_nil, or_false] at ha
  rcases ha with rfl | rfl <;> norm_num [currentBudget, armTwinA, armTwinB]

/-- C2 counterexample: with a single zero-score arm (conversions 10, revenue 0,
spend 100) and total_budget 1000, the equal-split branch outputs new_budget 1000
against current_budget 100, breaking the claimed clamp envelope
|new − current| ≤ 0.3 · current. -/
theorem equal_split_breaks_clamp :
    ¬ ∀ b ∈ fallbackAllocations reqZeroScore,
        |b.new_budget - b.current_budget| ≤ reqZeroScore.changeLimit * b.current_budget := by
  intro h
  have hA : fallbackAllocations reqZeroScore = [equalEntry 1000 1 armZeroScore] := by
    norm_num [fallbackAllocations, buildScores, aupsert, armScore, score_arm,
      ArmState.roas, reqZeroScore, armZeroScore]
  have hmem : equalEntry 1000 1 armZeroScore ∈ fallbackAllocations reqZeroScore := by
    rw [hA]
    exact List.mem_singleton_self _
  have hb := h _ hmem
  norm_num [equalEntry, currentBudget, reqZeroScore, armZeroScore] at hb

theorem aupsert_fresh {α : Type} (k : String) (v : α) :
    ∀ d : List (String × α), k ∉ d.map Prod.fst → aupsert k v d = d ++ [(k, v)]
  | [], _ => rfl
  | p :: t, h => by
      simp only [List.map_cons, List.mem_cons, not_or] at h
      unfold aupsert
      rw [if_neg (fun he => h.1 he.symm), aupsert_fresh k v t h.2]
      rfl

theorem foldl_aupsert_map {α : Type} (f : ArmState → α) (arms : List ArmState) :
    ∀ acc : List (String × α),
      (arms.map (fun a => a.id)).Nodup →
      (∀ a ∈ arms, a.id ∉ acc.map Prod.fst) →
      arms.foldl (fun d a => aupsert a.id (f a) d) acc
        = acc ++ arms.map (fun a => (a.id, f a)) := by
  induction arms with
  | nil => intro acc _ _; simp
  | cons x t ih =>
      intro acc hnd hfresh
      have hnd1 : (t.map (fun a => a.id)).Nodup :=
        (List.nodup_cons.mp (by simpa using hnd)).2
      have hxid : x.id ∉ t.map (fun a => a.id) :=
        (List.nodup_cons.mp (by simpa using hnd)).1
      have hfr : ∀ a ∈ t, a.id ∉ (acc ++ [(x.id, f x)]).map Prod.fst := by
        intro a ha
        simp only [List.map_append, List.mem_append, not_or]
        refine ⟨hfresh a (List.mem_cons_of_mem x ha), ?_⟩
        intro hin
        simp only [List.map_cons, List.map_nil, List.mem_singleton] at hin
        exact hxid (hin ▸ List.mem_map_of_mem (fun a => a.id) ha)
      simp only [List.foldl_cons]
      rw [aupsert_fresh x.id (f x) acc (hfresh x (List.mem_cons_self x t))]
      rw [ih (acc ++ [(x.id, f x)]) hnd1 hfr]
      simp

theorem buildScores_nodup (req : BudgetAllocationRequest)
    (hnd : (req.arms.map (fun a => a.id)).Nodup) :
    buildScores req = req.arms.map (fun a => (a.id, armScore req a)) := by
  unfold buildScores
  simpa using foldl_aupsert_map (armScore req) req.arms [] hnd (by simp)

theorem alookup_pairs {α : Type} (f : ArmState → α) (arms : List ArmState) :
    ∀ a : ArmState, a ∈ arms →
      (arms.map (fun x => x.id)).Nodup →
      alookup a.id (arms.map (fun x => (x.id, f x))) = some (f a) := by
  induction arms with
  | nil => intro a ha _; exact absurd ha (List.not_mem_nil a)
  | cons x t ih =>
      intro a ha hnd
      have hnd1 : (t.map (fun x => x.id)).Nodup :=
        (List.nodup_cons.mp (by simpa using hnd)).2
      have hxid : x.id ∉ t.map (fun x => x.id) :=
        (List.nodup_cons.mp (by simpa using hnd)).1
      rcases List.mem_cons.mp ha with rfl | hat
      · simp [alookup]
      · have hne : x.id ≠ a.id := by
          intro he
          exact hxid (he ▸ List.mem_map_of_mem (fun x => x.id) hat)
        simp only [List.map_cons, alookup]
        rw [if_neg hne]
        exact ih a hat hnd1

theorem sum_map_mul_div (l : List ArmState) (c T : ℚ) (f : ArmState → ℚ) :
    (l.map (fun a => c * (f a / T))).sum = c * ((l.map f).sum / T) := by
  induction l with
  | nil => simp
  | cons x t ih =>
      simp only [List.map_cons, List.sum_cons, ih]
      rw [add_div, mul_add]

theorem sum_map_const_q {α : Type} (l : List α) (c : ℚ) :
    (l.map (fun _ => c)).sum = (l.length : ℚ) * c := by
  induction l with
  | nil => simp
  | cons x t ih =>
      simp only [List.map_cons, List.sum_cons, ih, List.length_cons]
      push_cast
      ring

/-- C1 (amended): for a non-empty arm list with pairwise-distinct arm ids the
fallback allocation conserves the budget exactly — both on the equal-split
branch and, when no change-ratio clamp fires, on the proportional branch.  When
a clamp fires the total can exceed total_budget (see the counterexample), so no
one-sided bound holds in general. -/
theorem budget_fallback_conservation (req : BudgetAllocationRequest)
    (hne : req.arms ≠ [])
    (hnd : (req.arms.map (fun a => a.id)).Nodup)
    (hnc : totalScore req ≠ 0 → ∀ a ∈ req.arms, ¬ clampFires req a) :
    total_allocated req = req.total_budget := by
  have hlen : ((req.arms.length : ℚ)) ≠ 0 := by
    simpa using fun he => hne (List.length_eq_zero.mp he)
  by_cases hT : totalScore req = 0
  · unfold totalScore at hT
    simp only [total_allocated, fallbackAllocations]
    rw [if_pos hT]
    rw [List.map_map]
    have : (fun b => BudgetAllocation.new_budget b) ∘ equalEntry req.total_budget req.arms.length
        = fun _ => req.total_budget / (req.arms.length : ℚ) := rfl
    rw [this, sum_map_const_q]
    rw [mul_comm, div_mul_cancel₀ _ hlen]
  · have hT2 := hT
    unfold totalScore at hT2
    simp only [total_allocated, fallbackAllocations]
    rw [if_neg hT2]
    rw [List.map_map]
    have hmap : req.arms.map
          ((fun b => BudgetAllocation.new_budget b)
            ∘ propEntry req (buildScores req) ((List.map Prod.snd (buildScores req)).sum))
        = req.arms.map (fun a => req.total_budget * (armScore req a / totalScore req)) := by
      apply List.map_congr_left
      intro a ha
      have hlook : (alookup a.id (buildScores req)).getD 0 = armScore req a := by
        rw [buildScores_nodup req hnd, alookup_pairs (armScore req) req.arms a ha hnd]
        rfl
      have hnofire := hnc hT a ha
      unfold clampFires rawBudget at hnofire
      simp only [Function.comp_apply, propEntry, clampNew]
      rw [hlook]
      unfold totalScore
      unfold totalScore at hnofire
      rw [hlook] at hnofire
      rw [if_neg hnofire]
    rw [hmap, sum_map_mul_div]
    have hsum : (req.arms.map (armScore req)).sum = totalScore req := by
      unfold totalScore
      rw [buildScores_nodup req hnd, List.map_map]
      rfl
    rw [hsum, div_self hT, mul_one]

theorem budget_fallback_conservation_witness :
    reqTwins.arms ≠ [] ∧ total_allocated reqTwins = reqTwins.total_budget := by
  have hT : totalScore reqTwins ≠ 0 := by
    norm_num [totalScore, buildScores, aupsert, armScore, score_arm, ArmState.roas,
      reqTwins, armTwinA, armTwinB, show ("a" : String) ≠ "b" by decide]
  have hs : buildScores reqTwins = [("a", 2), ("b", 2)] := by
    norm_num [buildScores, aupsert, armScore, score_arm, ArmState.roas,
      reqTwins, armTwinA, armTwinB, show ("a" : String) ≠ "b" by decide]
  have hts : totalScore reqTwins = 4 := by
    rw [totalScore, hs]
    norm_num
  refine ⟨by decide, budget_fallback_conservation reqTwins (by decide) (by decide) ?_⟩
  intro _ a ha
  simp only [reqTwins, List.mem_cons, List.not_mem_nil, or_false] at ha
  have hraw1 : rawBudget reqTwins armTwinA = 50 := by
    unfold rawBudget
    rw [hs, hts]
    norm_num [alookup, reqTwins, armTwinA]
  have hraw2 : rawBudget reqTwins armTwinB = 50 := by
    unfold rawBudget
    rw [hs, hts]
    norm_num [alookup, reqTwins, armTwinA, armTwinB,
      show ("a" : String) ≠ "b" by decide]
  rcases ha with rfl | rfl
  · unfold clampFires
    rw [hraw1]
    norm_num [currentBudget, armTwinA, reqTwins]
  · unfold clampFires
    rw [hraw2]
    norm_num [currentBudget, armTwinA, armTwinB, reqTwins]

/-- C1 counterexample: a single well-scored arm with current budget 1000 and
total_budget 100 is clamped down only to 700, so the allocated total 700
exceeds total_budget 100 — the claimed bound Σ new_budget ≤ totalBudget fails. -/
theorem budget_fallback_overshoot :
    total_allocated reqClamp = 700 ∧ ¬ total_allocated reqClamp ≤ reqClamp.total_budget := by
  have h7 : total_allocated reqClamp = 700 := by
    norm_num [total_allocated, fallbackAllocations, buildScores, aupsert, armScore,
      score_arm, ArmState.roas, propEntry, clampNew, propReason, qTruthy, currentBudget,
      alookup, reqClamp, armBig]
  refine ⟨h7, ?_⟩
  rw [h7]
  norm_num [reqClamp]

theorem mem_aupsert {α : Type} (k : String) (v : α) :
    ∀ l : List (String × α), ∀ e ∈ aupsert k v l, e = (k, v) ∨ e ∈ l := by
  intro l
  induction l with
  | nil =>
      intro e he
      simp only [aupsert, List.mem_singleton] at he
      exact Or.inl he
  | cons p t ih =>
      intro e he
      simp only [aupsert] at he
      split at he
      · rcases List.mem_cons.mp he with rfl | het
        · exact Or.inl rfl
        · exact Or.inr (List.mem_cons_of_mem p het)
      · rcases List.mem_cons.mp he with rfl | het
        · exact Or.inr (List.mem_cons_self e t)
        · rcases ih e het with h | h
          · exact Or.inl h
          · exact Or.inr (List.mem_cons_of_mem p h)

theorem alookup_mem {α : Type} (k : String) :
    ∀ l : List (String × α), ∀ v : α, alookup k l = some v → (k, v) ∈ l := by
  intro l
  induction l with
  | nil => intro v hv; exact absurd hv (by simp [alookup])
  | cons p t ih =>
      intro v hv
      simp only [alookup] at hv
      split at hv
      case isTrue h =>
        obtain rfl := Option.some_injective _ hv
        rcases p with ⟨pk, pv⟩
        obtain rfl : pk = k := h
        exact List.mem_cons_self _ t
      case isFalse h =>
        exact List.mem_cons_of_mem p (ih v hv)

/-- Every record produced by update_arm_performance has pulls ≥ 1: a fresh
record is seeded with pulls = 1 and an update increments pulls.  Hence the
`pulls == 0 → float('inf')` branch of the UCB scorer (lines 148-150) can never
fire after the update loop, on any input. -/
theorem update_arm_performance_pulls_pos (m : PerfMap) (a : ArmState) (g : Goal)
    (hm : ∀ e ∈ m, 0 < e.2.pulls) :
    (∀ e ∈ (update_arm_performance m a g).1, 0 < e.2.pulls) ∧
      0 < (update_arm_performance m a g).2.pulls := by
  unfold update_arm_performance
  dsimp only
  cases hl : alookup a.id m with
  | none =>
      refine ⟨?_, by norm_num⟩
      intro e he
      rcases mem_aupsert a.id _ m e he with rfl | h
      · norm_num
      · exact hm e h
  | some p0 =>
      have hp0 : 0 < p0.pulls := hm (a.id, p0) (alookup_mem a.id m p0 hl)
      refine ⟨?_, by dsimp only; omega⟩
      intro e he
      rcases mem_aupsert a.id _ m e he with rfl | h
      · dsimp only; omega
      · exact hm e h

theorem runUpdates_pulls_pos (arms : List ArmState) (g : Goal) :
    ∀ st : PerfMap × PerfMap,
      (∀ e ∈ st.1, 0 < e.2.pulls) → (∀ e ∈ st.2, 0 < e.2.pulls) →
      (∀ e ∈ (arms.foldl
          (fun acc a =>
            let r := update_arm_performance acc.1 a g
            (r.1, aupsert a.id r.2 acc.2)) st).1, 0 < e.2.pulls) ∧
      (∀ e ∈ (arms.foldl
          (fun acc a =>
            let r := update_arm_performance acc.1 a g
            (r.1, aupsert a.id r.2 acc.2)) st).2, 0 < e.2.pulls) := by
  induction arms with
  | nil => intro st h1 h2; exact ⟨h1, h2⟩
  | cons x t ih =>
      intro st h1 h2
      simp only [List.foldl_cons]
      have hstep := update_arm_performance_pulls_pos st.1 x g h1
      refine ih _ hstep.1 ?_
      intro e he
      rcases mem_aupsert x.id _ st.2 e he with rfl | h
      · exact hstep.2
      · exact h2 e h

/-- After the ucb update loop every stored and reported record has pulls ≥ 1,
so all UCB scores are finite: the infinite-score branch is dead code. -/
theorem ucb_scores_always_finite (m : PerfMap) (arms : List ArmState) (g : Goal)
    (n : ℤ) (c : ℝ) (hm : ∀ e ∈ m, 0 < e.2.pulls) :
    ∀ e ∈ ucbScoresOf (runUpdates m arms g).2 n c, e.2 ≠ none := by
  intro e he
  unfold ucbScoresOf at he
  obtain ⟨p, hp, rfl⟩ := List.mem_map.mp he
  have hpos : 0 < p.2.pulls :=
    (runUpdates_pulls_pos arms g (m, []) hm (by simp)).2 p hp
  unfold ucbScore
  dsimp only
  rw [if_neg (by omega)]
  exact Option.some_ne_none _

/-- C4 (code bug evidence): allocate_budget builds a fresh
OptimizationStrategyService per call, so the ArmPerformance record of arm "a"
has pulls = 1 and mean_reward equal to the latest raw reward (4) after the
second call as well — not pulls = 2 and not the exponential moving average
2 + 0.1·(4 − 2) = 2.2 required for in-place cross-call learning. -/
theorem bandit_state_not_persisted :
    ((alookup ("a") perfAfterCall1).map (fun p => p.pulls) = some 1) ∧
      ((alookup ("a") perfAfterCall2).map (fun p => p.pulls) = some 1) ∧
      ¬ ((alookup ("a") perfAfterCall2).map (fun p => p.pulls) = some 2) ∧
      ((alookup ("a") perfAfterCall2).map (fun p => p.mean_reward) = some (4 : ℝ)) ∧
      ¬ ((alookup ("a") perfAfterCall2).map (fun p => p.mean_reward)
          = some ((2 : ℝ) + (1/10) * (4 - 2))) := by
  have h1 : perfAfterCall1 = [("a",
      { arm_id := "a", platform := Platform.facebook,
        mean_reward := ((rewardFor armCycle1 Goal.roas : ℚ) : ℝ), variance := 0,
        pulls := 1, confidence_interval := 0 })] := by
    unfold perfAfterCall1 allocate_budget_ucb ucb runUpdates update_arm_performance
    simp [alookup, aupsert, armCycle1]
  have h2 : perfAfterCall2 = [("a",
      { arm_id := "a", platform := Platform.facebook,
        mean_reward := ((rewardFor armCycle2 Goal.roas : ℚ) : ℝ), variance := 0,
        pulls := 1, confidence_interval := 0 })] := by
    unfold perfAfterCall2 allocate_budget_ucb ucb runUpdates update_arm_performance
    simp [alookup, aupsert, armCycle2, armCycle1]
  have hrew : ((rewardFor armCycle2 Goal.roas : ℚ) : ℝ) = 4 := by
    norm_num [rewardFor, ArmState.roas, armCycle2, armCycle1]
  rw [h1, h2]
  norm_num [alookup, hrew]

theorem coldStartScores_eval :
    coldStartScores = [("u1", some (0 : ℝ)), ("u2", some 0), ("u3", some 0)] := by
  unfold coldStartScores ucbScoresOf ucbScore runUpdates update_arm_performance totalPulls
  norm_num [alookup, aupsert, freshArms, armFresh1, armFresh2, armFresh3,
    rewardFor, ArmState.roas, Real.log_one, Real.sqrt_zero,
    show ("u1" : String) ≠ "u2" by decide, show ("u1" : String) ≠ "u3" by decide,
    show ("u2" : String) ≠ "u3" by decide, show ("u2" : String) ≠ "u1" by decide,
    show ("u3" : String) ≠ "u1" by decide, show ("u3" : String) ≠ "u2" by decide]

/-- C5 counterexample: in the cold-start scenario the UCB scores are NOT +∞
(modelled by none): ucb calls update_arm_performance before scoring, which
seeds every record with pulls = 1, so each of the three arms gets the finite
score 0 + 2·√(ln 1 / 1) = 0. -/
theorem ucb_cold_start_scores_finite :
    coldStartScores.map (fun e => e.2) = [some 0, some 0, some 0] ∧
      some (0 : ℝ) ≠ (none : Option ℝ) := by
  rw [coldStartScores_eval]
  exact ⟨rfl, Option.some_ne_none 0⟩

/-- C5 (amended): immediately after reset_performance, a UCB allocation over
three fresh arms seeds each performance record with pulls = 1, gives every arm
the finite UCB score 0, and the zero-total-score branch divides the budget
equally: with total_budget = 300 each arm receives exactly 100. -/
theorem ucb_cold_start_equal_split :
    coldStartRun.2 = [("u1", (100 : ℝ)), ("u2", 100), ("u3", 100)] ∧
      coldStartRun.1.map (fun e => e.2.pulls) = [1, 1, 1] := by
  constructor
  · unfold coldStartRun allocate_budget_ucb ucb runUpdates update_arm_performance
      totalPulls ucbScoresOf ucbScore
    norm_num [alookup, aupsert, freshArms, armFresh1, armFresh2, armFresh3,
      rewardFor, ArmState.roas, Real.log_one, Real.sqrt_zero, List.cons_ne_nil,
      show ("u1" : String) ≠ "u2" by decide, show ("u1" : String) ≠ "u3" by decide,
      show ("u2" : String) ≠ "u3" by decide, show ("u2" : String) ≠ "u1" by decide,
      show ("u3" : String) ≠ "u1" by decide, show ("u3" : String) ≠ "u2" by decide]
  · unfold coldStartRun allocate_budget_ucb ucb runUpdates update_arm_performance
    norm_num [alookup, aupsert, freshArms, armFresh1, armFresh2, armFresh3,
      rewardFor, ArmState.roas, List.cons_ne_nil,
      show ("u1" : String) ≠ "u2" by decide, show ("u1" : String) ≠ "u3" by decide,
      show ("u2" : String) ≠ "u3" by decide, show ("u2" : String) ≠ "u1" by decide,
      show ("u3" : String) ≠ "u1" by decide, show ("u3" : String) ≠ "u2" by decide]

end AdOpt
